import Mathlib

/-!
Shallow embedding of `src/handler/GenerateProjectHandler.ts` from the
vscode-spring-initializr repository.

The TypeScript file orchestrates a project-generation wizard: a fixed
sequence of interactive steps (service URL, language, groupId, artifactId,
packaging, bootVersion, dependencies, target folder), followed by a
download-and-unzip phase and a post-generation "open project" action.

Interactive prompts, configuration lookups, network and filesystem calls are
external collaborators; we model each wizard run against an explicit
environment record that scripts the outcome of every external interaction
(which quick-pick item the user chose, what the configuration returns,
whether the download succeeded, which paths exist on disk, ...).  Side
effects performed by the handler (invoking a step, downloading, updating the
last-used dependency selection, mutating the workspace) are recorded in an
event trace, and thrown errors become `Except` errors.
-/

/-- JavaScript `s.startsWith(pre)`, via the underlying character lists. -/
def strStartsWith (s pre : String) : Bool :=
  pre.data.isPrefixOf s.data

/-- JavaScript `s.toLowerCase()`, via the underlying character list. -/
def strToLower (s : String) : String :=
  ⟨s.data.map Char.toLower⟩

/-- JavaScript truthiness of a `string | undefined` value: `undefined` and
the empty string are falsy, every other string is truthy. -/
def jsTruthy : Option String → Bool
  | none => false
  | some s => s ≠ ""

/-- JavaScript `a || b` on `string | undefined` values. -/
def jsOr (a b : Option String) : Option String :=
  if jsTruthy a then a else b

/-- JavaScript `a && a.toLowerCase()` on a `string | undefined` value: a
falsy `a` (undefined or empty) is returned unchanged, otherwise the
lower-cased string. -/
def jsAndLower (a : Option String) : Option String :=
  if jsTruthy a then a.map strToLower else a

/-- `path.join(a, b)` specialised to joining a directory and a name. -/
def pathJoin (a b : String) : String := a ++ "/" ++ b

/-- Source: `const OPEN_IN_NEW_WORKSPACE = "Open";` -/
def OPEN_IN_NEW_WORKSPACE : String := "Open"

/-- Source: `const OPEN_IN_CURRENT_WORKSPACE = "Add to Workspace";` -/
def OPEN_IN_CURRENT_WORKSPACE : String := "Add to Workspace"

/-- The `WizardParams` interface: optional pre-supplied defaults.
(`projectType` is passed to the handler's constructor separately and the
`projectType` member of the interface is unused by the handler, so it is
omitted here.) -/
structure WizardParams where
  artifactId : Option String := none
  groupId : Option String := none
  language : Option String := none
  packaging : Option String := none
  bootVersion : Option String := none
  dependencies : Option (List String) := none
  targetFolder : Option String := none
deriving Repr, DecidableEq

/-- The `spring.initializr` configuration section read via
`vscode.workspace.getConfiguration("spring.initializr").get<string>(...)`;
each key yields `string | undefined`. -/
structure InitializrConfig where
  defaultLanguage : Option String := none
  defaultGroupId : Option String := none
  defaultArtifactId : Option String := none
  defaultPackaging : Option String := none
  defaultOpenProjectMethod : Option String := none
deriving Repr, DecidableEq

/-- The `IValue` model: one selectable Spring Boot version `{id, name}`. -/
structure IValue where
  id : String
  name : String
deriving Repr, DecidableEq

/-- The `IDependenciesItem` model: an item shown by the dependency quick
pick, carrying a kind tag (`"dependency"` for a toggle-able item, anything
else for the terminal confirm item) and an identifier string. -/
structure IDependenciesItem where
  itemType : String
  id : String
deriving Repr, DecidableEq

/-- Errors a wizard run can end in: `OperationCanceledError` thrown by the
handler, an error propagated verbatim from the download/unzip phase, and a
JavaScript `TypeError` from reading a property of `undefined`. -/
inductive Err where
  | operationCanceled (msg : String)
  | thrown (err : String)
  | undefinedAccess (msg : String)
deriving Repr, DecidableEq

/-- `specifyLanguage`: defaults, else configuration, else quick pick over
Java/Kotlin/Groovy (`languagePick` scripts its outcome), then
`language && language.toLowerCase()`. -/
def specifyLanguage (defaults : WizardParams) (config : InitializrConfig)
    (languagePick : Option String) : Option String :=
  let language := jsOr defaults.language config.defaultLanguage
  let language := if jsTruthy language then language else languagePick
  jsAndLower language

/-- `specifyPackaging`: same shape as `specifyLanguage` with the JAR/WAR
quick pick. -/
def specifyPackaging (defaults : WizardParams) (config : InitializrConfig)
    (packagingPick : Option String) : Option String :=
  let packaging := jsOr defaults.packaging config.defaultPackaging
  let packaging := if jsTruthy packaging then packaging else packagingPick
  jsAndLower packaging

/-- `specifyGroupId`: the defaults/configuration value only seeds the input
box's initial text; the step resolves to whatever the input box returns
(`groupIdInput`, `undefined` on dismissal).  Validation happens inside the
input box (`validateInput: groupIdValidation`) and never escapes it. -/
def specifyGroupId (_defaults : WizardParams) (_config : InitializrConfig)
    (groupIdInput : Option String) : Option String :=
  groupIdInput

/-- `specifyArtifactId`: same shape as `specifyGroupId`. -/
def specifyArtifactId (_defaults : WizardParams) (_config : InitializrConfig)
    (artifactIdInput : Option String) : Option String :=
  artifactIdInput

/-- `specifyBootVersion`: a quick pick over `{value, label}` items built
from the service's version list; resolves to
`bootVersion && bootVersion.value && bootVersion.value.id`. -/
def specifyBootVersion (bootVersionPick : Option IValue) : Option String :=
  bootVersionPick.map (fun v => v.id)

/-- `specifyOpenMethod`: reads `defaultOpenProjectMethod`; when it is
neither recognised literal, prompts with an information message
(`openMethodPick` scripts the button the user pressed, `none` = dismissed).
Also returns whether the prompt was shown. -/
def specifyOpenMethod (config : InitializrConfig) (_hasOpenFolder : Bool)
    (openMethodPick : Option String) : Option String × Bool :=
  let openMethod := config.defaultOpenProjectMethod
  if openMethod ≠ some OPEN_IN_CURRENT_WORKSPACE ∧ openMethod ≠ some OPEN_IN_NEW_WORKSPACE then
    (openMethodPick, true)
  else
    (openMethod, false)

/-- The dependency-selection state held by the module-level
`dependencyManager` singleton.  Modelled from the spec:
`DependencyManager`'s source is not part of this repository snapshot; the
spec describes it as tracking "the set of currently selected library
identifiers" with toggle semantics. -/
structure DependencyManager where
  selectedIds : List String
deriving Repr, DecidableEq

/-- `dependencyManager.toggleDependency(id)`.  Modelled from the spec:
toggles membership of `depId` in the selection set. -/
def DependencyManager.toggleDependency (m : DependencyManager) (depId : String) :
    DependencyManager :=
  if depId ∈ m.selectedIds then
    ⟨m.selectedIds.filter (fun i => i ≠ depId)⟩
  else
    ⟨m.selectedIds ++ [depId]⟩

/-- The terminal confirm item presented by
`dependencyManager.getQuickPickItems`.  Modelled from the spec: the
confirm/proceed item carries the identifier of the current selection (the
selected ids joined by commas) and a kind tag distinct from
`"dependency"`. -/
def DependencyManager.confirmItem (m : DependencyManager) : IDependenciesItem :=
  ⟨"selection", String.intercalate "," m.selectedIds⟩

/-- One user interaction with the dependency quick pick: pick a toggle-able
dependency item, pick the confirm item, or dismiss the prompt
(`showQuickPick` resolving to `undefined`). -/
inductive DepAction where
  | pickDependency (depId : String)
  | pickConfirm
  | dismiss
deriving Repr, DecidableEq

/-- `specifyDependencies`: the do-while selection loop.  Each iteration
first re-assigns `dependencyManager.selectedIds = defaults.dependencies || []`
(this assignment is inside the loop in the source), then shows the quick
pick built from the manager's current state and consumes the next scripted
action.  Picking a dependency item toggles it and loops; picking the
confirm item exits the loop returning that item; dismissal (including an
exhausted script) leaves `current` null, so the function throws
`OperationCanceledError`.  Returns the chosen item together with the
manager state left behind. -/
def specifyDependencies (defaults : WizardParams) (acts : List DepAction)
    (m : DependencyManager) : Except Err (IDependenciesItem × DependencyManager) :=
  let m : DependencyManager := { m with selectedIds := defaults.dependencies.getD [] }
  match acts with
  | [] => .error (.operationCanceled "Canceled on dependency seletion.")
  | DepAction.dismiss :: _ => .error (.operationCanceled "Canceled on dependency seletion.")
  | DepAction.pickConfirm :: _ => .ok (m.confirmItem, m)
  | DepAction.pickDependency depId :: rest =>
      specifyDependencies defaults rest (m.toggleDependency depId)

/-- Environment of one `specifyTargetFolder` run: the successive results of
`openDialogForFolder` (folder path, or `none` when the dialog is
dismissed), the successive results of the overwrite warning message
(`some "Continue"`, `some "Choose another folder"`, or `none` when the
message is dismissed), and the set of paths for which `fse.pathExists`
answers true. -/
structure TargetFolderEnv where
  folderPicks : List (Option String)
  warnAnswers : List (Option String)
  existingPaths : List String
deriving Repr, DecidableEq

/-- The while loop of `specifyTargetFolder`: while the candidate folder is
present and `<candidate>/<projectName>` exists, show the overwrite warning;
"Choose another folder" re-invokes the folder picker (counted as one
round-trip), anything else breaks out.  Returns the resulting folder (or
`none`) and the number of choose-another round-trips performed.  A
run that out-lives its scripted answers behaves as if the corresponding
dialog was dismissed. -/
def targetFolderLoop (projectName : String) (existingPaths : List String) :
    List (Option String) → List (Option String) → Option String → Nat →
    Option String × Nat
  | _, _, none, retries => (none, retries)
  | _, [], some uri, retries => (some uri, retries)
  | picks, answer :: warns', some uri, retries =>
    if pathJoin uri projectName ∈ existingPaths then
      if answer = some "Choose another folder" then
        targetFolderLoop projectName existingPaths picks.tail warns' (picks.headD none)
          (retries + 1)
      else
        (some uri, retries)
    else
      (some uri, retries)

/-- `specifyTargetFolder`: resolves the initial candidate from
`defaults.targetFolder` when truthy, else from the folder picker, then runs
the conflict-retry loop.  Returns the chosen folder (or `none` for
cancellation) and the number of choose-another round-trips. -/
def specifyTargetFolder (defaults : WizardParams) (projectName : String)
    (env : TargetFolderEnv) : Option String × Nat :=
  if jsTruthy defaults.targetFolder then
    targetFolderLoop projectName env.existingPaths env.folderPicks env.warnAnswers
      defaults.targetFolder 0
  else
    targetFolderLoop projectName env.existingPaths env.folderPicks.tail env.warnAnswers
      (env.folderPicks.headD none) 0

/-- Observable actions of the download-and-unzip phase: a progress report,
the attempt to download the archive, and the attempt to extract it. -/
inductive FetchEvent where
  | progress (msg : String)
  | downloadAttempt (url : String)
  | extractAttempt (file dir : String)
deriving Repr, DecidableEq

deriving instance DecidableEq for Except

/-- Environment of one `downloadAndUnzip` run: the result of
`downloadFile(targetUrl)` (an error payload, or the temporary file path)
and the outcome of `extract` (`some err`, or `none` for success). -/
structure FetchEnv where
  downloadResult : Except String String
  extractResult : Option String
deriving Repr, DecidableEq

/-- `downloadAndUnzip`: reports "Downloading zip package...", downloads;
on failure rejects with the original error without attempting extraction.
Otherwise reports "Starting to unzip..." and extracts into the target
folder; an extraction error is rejected verbatim. -/
def downloadAndUnzip (targetUrl targetFolder : String) (env : FetchEnv) :
    List FetchEvent × Except String Unit :=
  match env.downloadResult with
  | .error e =>
      ([.progress "Downloading zip package...", .downloadAttempt targetUrl], .error e)
  | .ok filepath =>
      match env.extractResult with
      | some err =>
          ([.progress "Downloading zip package...", .downloadAttempt targetUrl,
            .progress "Starting to unzip...", .extractAttempt filepath targetFolder],
           .error err)
      | none =>
          ([.progress "Downloading zip package...", .downloadAttempt targetUrl,
            .progress "Starting to unzip...", .extractAttempt filepath targetFolder],
           .ok ())

/-- The query-parameter list of the `downloadUrl` getter, in source
order. -/
def downloadUrlParams (projectType language groupId artifactId packaging bootVersion
    dependenciesId : String) : List String :=
  ["type=" ++ projectType,
   "language=" ++ language,
   "groupId=" ++ groupId,
   "artifactId=" ++ artifactId,
   "packaging=" ++ packaging,
   "bootVersion=" ++ bootVersion,
   "baseDir=" ++ artifactId,
   "dependencies=" ++ dependenciesId]

/-- The `downloadUrl` getter:
`` `${serviceUrl}/starter.zip?${params.join("&")}` ``. -/
def downloadUrl (serviceUrl projectType language groupId artifactId packaging bootVersion
    dependenciesId : String) : String :=
  serviceUrl ++ "/starter.zip?" ++
    String.intercalate "&"
      (downloadUrlParams projectType language groupId artifactId packaging bootVersion
        dependenciesId)

/-- One entry of `vscode.workspace.workspaceFolders`; its `uri` may itself
be absent (the source guards `workspaceFolder.uri && ...`). -/
structure WorkspaceFolder where
  uri : Option String
deriving Repr, DecidableEq

/-- Observable side effects of one wizard run, in order of occurrence:
invocation of an instrumented step, a download/unzip phase action,
`dependencyManager.updateLastUsedDependencies`, the `vscode.openFolder`
command, and `vscode.workspace.updateWorkspaceFolders`. -/
inductive Event where
  | step (name : String)
  | fetch (e : FetchEvent)
  | updateLastUsedDependencies (id : String)
  | openFolder (path : String)
  | updateWorkspaceFolders (path : String)
deriving Repr, DecidableEq

/-- Environment of one `runSteps` run: the scripted outcomes of every
external interaction, plus the state of the VS Code workspace. -/
structure StepEnv where
  serviceUrl : Option String
  config : InitializrConfig
  languagePick : Option String
  groupIdInput : Option String
  artifactIdInput : Option String
  packagingPick : Option String
  bootVersionPick : Option IValue
  depActions : List DepAction
  targetEnv : TargetFolderEnv
  fetch : FetchEnv
  rootPath : Option String
  workspaceFolders : Option (List WorkspaceFolder)
  openMethodPick : Option String
deriving Repr, DecidableEq

/-- Lines 96–107 of `runSteps`: compute `hasOpenFolder`, resolve the open
method, and either run `vscode.openFolder`, or (for "Add to Workspace")
add the project folder to the workspace unless its path is already nested
under the root path or under some workspace folder.  When
`vscode.workspace.workspaceFolders` is `undefined`, the branch reads
`.find` of `undefined` and fails with a `TypeError`. -/
def postGenerationAction (config : InitializrConfig) (rootPath : Option String)
    (workspaceFolders : Option (List WorkspaceFolder)) (openMethodPick : Option String)
    (outputFsPath artifactId : String) : List Event × Except Err Unit :=
  let hasOpenFolder := workspaceFolders.isSome || rootPath.isSome
  let projectLocation := outputFsPath
  let choice := (specifyOpenMethod config hasOpenFolder openMethodPick).1
  if choice = some OPEN_IN_NEW_WORKSPACE then
    ([Event.openFolder (pathJoin projectLocation artifactId)], .ok ())
  else if choice = some OPEN_IN_CURRENT_WORKSPACE then
    if !(jsTruthy rootPath) || !(strStartsWith outputFsPath (rootPath.getD "")) then
      match workspaceFolders with
      | none =>
          ([], .error (.undefinedAccess "Cannot read properties of undefined (reading find)"))
      | some wfs =>
          if (wfs.find? (fun wf =>
                match wf.uri with
                | some u => strStartsWith outputFsPath u
                | none => false)).isNone then
            ([Event.updateWorkspaceFolders (pathJoin projectLocation artifactId)], .ok ())
          else
            ([], .ok ())
    else
      ([], .ok ())
  else
    ([], .ok ())

/-- `GenerateProjectHandler.runSteps`: the fixed step sequence.  After each
of the first six steps and the target-folder step, an `undefined` result
raises `OperationCanceledError` with a step-specific message; the
dependencies step raises from within itself.  On reaching the end of the
step sequence it downloads and unzips, then updates the last-used
dependency selection, then performs the post-generation action.
`projectType` is the constructor argument; `dm` is the state of the
`dependencyManager` singleton at entry. -/
def runSteps (projectType : String) (defaults : WizardParams) (dm : DependencyManager)
    (env : StepEnv) : List Event × Except Err Unit :=
  let acc := [Event.step "serviceUrl"]
  match env.serviceUrl with
  | none => (acc, .error (.operationCanceled "Service URL not specified."))
  | some serviceUrl =>
    let acc := acc ++ [Event.step "Language"]
    match specifyLanguage defaults env.config env.languagePick with
    | none => (acc, .error (.operationCanceled "Language not specified."))
    | some language =>
      let acc := acc ++ [Event.step "GroupId"]
      match specifyGroupId defaults env.config env.groupIdInput with
      | none => (acc, .error (.operationCanceled "GroupId not specified."))
      | some groupId =>
        let acc := acc ++ [Event.step "ArtifactId"]
        match specifyArtifactId defaults env.config env.artifactIdInput with
        | none => (acc, .error (.operationCanceled "ArtifactId not specified."))
        | some artifactId =>
          let acc := acc ++ [Event.step "Packaging"]
          match specifyPackaging defaults env.config env.packagingPick with
          | none => (acc, .error (.operationCanceled "Packaging not specified."))
          | some packaging =>
            let acc := acc ++ [Event.step "BootVersion"]
            match specifyBootVersion env.bootVersionPick with
            | none => (acc, .error (.operationCanceled "BootVersion not specified."))
            | some bootVersion =>
              let acc := acc ++ [Event.step "Dependencies"]
              match specifyDependencies defaults env.depActions dm with
              | .error e => (acc, .error e)
              | .ok (dependencies, _dm') =>
                let acc := acc ++ [Event.step "TargetFolder"]
                match (specifyTargetFolder defaults artifactId env.targetEnv).1 with
                | none => (acc, .error (.operationCanceled "Target folder not specified."))
                | some outputFsPath =>
                  let acc := acc ++ [Event.step "DownloadUnzip"]
                  let url := downloadUrl serviceUrl projectType language groupId artifactId
                    packaging bootVersion dependencies.id
                  let fetched := downloadAndUnzip url outputFsPath env.fetch
                  let acc := acc ++ fetched.1.map Event.fetch
                  match fetched.2 with
                  | .error e => (acc, .error (.thrown e))
                  | .ok _ =>
                    let acc := acc ++
                      [Event.updateLastUsedDependencies dependencies.id]
                    let post := postGenerationAction env.config env.rootPath
                      env.workspaceFolders env.openMethodPick outputFsPath artifactId
                    (acc ++ post.1, post.2)

/-- Does a `name=value` query component carry the given parameter name? -/
def hasParamName (component paramName : String) : Bool :=
  (paramName ++ "=").data.isPrefixOf component.data

/-- C2 (counterexample): for the claimed inputs the produced URL is fully
computed below; its query components are exactly the eight listed ones, the
version parameter among them is named `bootVersion`, and no component is
(or is even named) the claimed `platformVersion` parameter. -/
theorem downloadUrl_platformVersion_param_refuted :
    downloadUrl "https://start.spring.io" "maven-project" "java" "com.example" "demo"
        "jar" "2.7.0" "web,data-jpa"
      = "https://start.spring.io/starter.zip?type=maven-project&language=java&groupId=com.example&artifactId=demo&packaging=jar&bootVersion=2.7.0&baseDir=demo&dependencies=web,data-jpa" ∧
    downloadUrlParams "maven-project" "java" "com.example" "demo" "jar" "2.7.0" "web,data-jpa"
      = ["type=maven-project", "language=java", "groupId=com.example", "artifactId=demo",
         "packaging=jar", "bootVersion=2.7.0", "baseDir=demo", "dependencies=web,data-jpa"] ∧
    "platformVersion=2.7.0" ∉
      downloadUrlParams "maven-project" "java" "com.example" "demo" "jar" "2.7.0" "web,data-jpa" ∧
    ∀ c ∈ downloadUrlParams "maven-project" "java" "com.example" "demo" "jar" "2.7.0"
        "web,data-jpa",
      hasParamName c "platformVersion" = false := by
  refine ⟨by set_option maxRecDepth 4000 in decide, by decide, by decide, by decide⟩

/-- C2 (amended): with the version parameter named `bootVersion` (as the
source writes it) rather than `platformVersion`, the claim holds: for any
service URL the produced download URL is the service URL followed by the
`/starter.zip` path and a query string holding exactly the eight parameters
`type`, `language`, `groupId`, `artifactId`, `packaging`, `bootVersion`,
`baseDir`, `dependencies` with the claimed values, where `baseDir` equals
the artifactId (`baseDir=demo`). -/
theorem downloadUrl_query_exact (serviceUrl : String) :
    downloadUrl serviceUrl "maven-project" "java" "com.example" "demo" "jar" "2.7.0"
        "web,data-jpa"
      = serviceUrl ++ "/starter.zip?type=maven-project&language=java&groupId=com.example&artifactId=demo&packaging=jar&bootVersion=2.7.0&baseDir=demo&dependencies=web,data-jpa" ∧
    downloadUrlParams "maven-project" "java" "com.example" "demo" "jar" "2.7.0" "web,data-jpa"
      = ["type=maven-project", "language=java", "groupId=com.example", "artifactId=demo",
         "packaging=jar", "bootVersion=2.7.0", "baseDir=demo", "dependencies=web,data-jpa"] := by
  constructor
  · show serviceUrl ++ _ ++ _ = serviceUrl ++ _
    rw [String.append_assoc]
    exact congrArg (fun s => serviceUrl ++ s) (by set_option maxRecDepth 4000 in decide)
  · decide

/-- C5: if the dependency quick pick resolves to no item — after any number
of toggles, in particular immediately — `specifyDependencies` fails with
`OperationCanceledError` ("Canceled on dependency seletion.") instead of
returning a value, and the actions scripted after the dismissal are never
consumed (no re-prompt). -/
theorem specifyDependencies_dismiss_cancels (defaults : WizardParams)
    (dm : DependencyManager) (toggles : List String) (rest : List DepAction) :
    specifyDependencies defaults
        (toggles.map DepAction.pickDependency ++ DepAction.dismiss :: rest) dm
      = .error (.operationCanceled "Canceled on dependency seletion.") := by
  induction toggles generalizing dm with
  | nil => rfl
  | cons t ts ih => simpa [specifyDependencies] using ih _

/-- C3 (code bug): because `specifyDependencies` re-assigns
`dependencyManager.selectedIds = defaults.dependencies || []` at the top of
every loop iteration, a toggle performed in one iteration is wiped before
the next prompt is built.  Concretely, starting from an empty selection
with no defaults, toggling `web` once and then confirming returns the
confirm item of the *empty* selection (id `""`), although the net-selected
set after one toggle of `web` is `["web"]` (as `toggleDependency` itself
shows), so the claimed net-selection property fails. -/
theorem specifyDependencies_reset_discards_toggles :
    specifyDependencies {} [DepAction.pickDependency "web", DepAction.pickConfirm] ⟨[]⟩
      = .ok ((DependencyManager.mk []).confirmItem, ⟨[]⟩) ∧
    (DependencyManager.mk []).confirmItem.id = "" ∧
    (DependencyManager.mk []).toggleDependency "web" = ⟨["web"]⟩ ∧
    ((DependencyManager.mk []).toggleDependency "web").confirmItem.id = "web" := by
  refine ⟨rfl, rfl, by decide, by decide⟩

/-- The progress messages reported during one download-and-unzip run, in
order. -/
def fetchProgressLabels (events : List FetchEvent) : List String :=
  events.filterMap (fun e =>
    match e with
    | FetchEvent.progress m => some m
    | _ => none)

/-- Was extraction attempted during one download-and-unzip run? -/
def fetchAttemptedExtract (events : List FetchEvent) : Bool :=
  events.any (fun e =>
    match e with
    | FetchEvent.extractAttempt _ _ => true
    | _ => false)

/-- C7: if downloading fails, `downloadAndUnzip` rejects with the original
error and never attempts extraction (having reported only the downloading
label); if extraction fails after a successful download, it rejects with
that error verbatim; and whenever the download succeeds the two
human-readable phase labels are reported in order — downloading first,
then unzipping. -/
theorem downloadAndUnzip_error_propagation (url dir e f err : String)
    (extractOutcome : Option String) :
    downloadAndUnzip url dir ⟨.error e, extractOutcome⟩
      = ([.progress "Downloading zip package...", .downloadAttempt url], .error e) ∧
    fetchAttemptedExtract (downloadAndUnzip url dir ⟨.error e, extractOutcome⟩).1 = false ∧
    fetchProgressLabels (downloadAndUnzip url dir ⟨.error e, extractOutcome⟩).1
      = ["Downloading zip package..."] ∧
    downloadAndUnzip url dir ⟨.ok f, some err⟩
      = ([.progress "Downloading zip package...", .downloadAttempt url,
          .progress "Starting to unzip...", .extractAttempt f dir], .error err) ∧
    fetchProgressLabels (downloadAndUnzip url dir ⟨.ok f, extractOutcome⟩).1
      = ["Downloading zip package...", "Starting to unzip..."] ∧
    downloadAndUnzip url dir ⟨.ok f, none⟩
      = ([.progress "Downloading zip package...", .downloadAttempt url,
          .progress "Starting to unzip...", .extractAttempt f dir], .ok ()) := by
  refine ⟨rfl, rfl, rfl, rfl, ?_, rfl⟩
  cases extractOutcome <;> rfl

/-- One conflict-loop iteration: a conflicting candidate plus the answer
"Choose another folder" consumes the next scripted folder pick. -/
lemma targetFolderLoop_step (projectName : String) (existingPaths : List String)
    (picks : List (Option String)) (answer : Option String)
    (warns' : List (Option String)) (uri : String) (n : Nat)
    (hconf : pathJoin uri projectName ∈ existingPaths)
    (hans : answer = some "Choose another folder") :
    targetFolderLoop projectName existingPaths picks (answer :: warns') (some uri) n
      = targetFolderLoop projectName existingPaths picks.tail warns' (picks.headD none)
          (n + 1) := by
  simp only [targetFolderLoop]
  rw [if_pos hconf, if_pos hans]

/-- A conflicting candidate with any warning answer other than "Choose
another folder" (including dismissal) breaks the loop with that
candidate. -/
lemma targetFolderLoop_break (projectName : String) (existingPaths : List String)
    (picks : List (Option String)) (answer : Option String)
    (warns' : List (Option String)) (uri : String) (n : Nat)
    (hconf : pathJoin uri projectName ∈ existingPaths)
    (hans : answer ≠ some "Choose another folder") :
    targetFolderLoop projectName existingPaths picks (answer :: warns') (some uri) n
      = (some uri, n) := by
  simp only [targetFolderLoop]
  rw [if_pos hconf, if_neg hans]

/-- A non-conflicting candidate ends the loop at once. -/
lemma targetFolderLoop_done (projectName : String) (existingPaths : List String)
    (picks warns : List (Option String)) (uri : String) (n : Nat)
    (h : pathJoin uri projectName ∉ existingPaths) :
    targetFolderLoop projectName existingPaths picks warns (some uri) n
      = (some uri, n) := by
  cases warns with
  | nil => rfl
  | cons w ws =>
    simp only [targetFolderLoop]
    rw [if_neg h]

/-- An absent candidate (dismissed folder picker) ends the loop with no
folder. -/
lemma targetFolderLoop_dismissed (projectName : String) (existingPaths : List String)
    (picks warns : List (Option String)) (n : Nat) :
    targetFolderLoop projectName existingPaths picks warns none n = (none, n) := by
  cases warns <;> rfl

/-- Running the conflict loop from a conflicting candidate `cur`, with
every later scripted candidate in `bads` also conflicting, the candidate
`good` after them not conflicting, and every warning answered with "Choose
another folder": the loop performs one round-trip per conflicting
candidate and ends on `good`. -/
lemma targetFolderLoop_all_conflicts (projectName good : String)
    (existingPaths : List String) (picks warns : List (Option String))
    (hgood : pathJoin good projectName ∉ existingPaths) :
    ∀ (bads : List String) (cur : String) (n : Nat),
      pathJoin cur projectName ∈ existingPaths →
      (∀ b ∈ bads, pathJoin b projectName ∈ existingPaths) →
      targetFolderLoop projectName existingPaths (bads.map some ++ some good :: picks)
          (some "Choose another folder" ::
            (List.replicate bads.length (some "Choose another folder") ++ warns))
          (some cur) n
        = (some good, n + bads.length + 1) := by
  intro bads
  induction bads with
  | nil =>
    intro cur n hcur _
    simp only [List.map_nil, List.nil_append, List.length_nil, List.replicate_zero]
    rw [targetFolderLoop_step projectName existingPaths _ _ _ _ _ hcur rfl]
    simp only [List.tail_cons, List.headD_cons]
    rw [targetFolderLoop_done projectName existingPaths _ _ _ _ hgood]
  | cons b bs ih =>
    intro cur n hcur hbads
    simp only [List.map_cons, List.cons_append, List.length_cons, List.replicate_succ]
    rw [targetFolderLoop_step projectName existingPaths _ _ _ _ _ hcur rfl]
    simp only [List.tail_cons, List.headD_cons]
    rw [ih b (n + 1) (hbads b (List.mem_cons_self b bs))
      (fun x hx => hbads x (List.mem_cons_of_mem b hx))]
    simp only [Prod.mk.injEq, true_and]
    omega

/-- C4: with no pre-supplied target folder, (i) when the first `K`
candidate folders each already contain a `projectName` subdirectory, the
`(K+1)`th does not, and every overwrite warning is answered "Choose
another folder", the step performs exactly `K` choose-another round-trips
and then returns the `(K+1)`th candidate; (ii) answering "Continue" at a
conflicting candidate returns that candidate immediately with no further
round-trip, and likewise mid-loop at any retry count `n`; (iii) a
dismissed folder picker makes the step return no folder. -/
theorem specifyTargetFolder_conflict_retries (projectName good cur : String)
    (existingPaths : List String) (bads : List String)
    (picks warns : List (Option String)) (n : Nat)
    (hbads : ∀ b ∈ bads, pathJoin b projectName ∈ existingPaths)
    (hgood : pathJoin good projectName ∉ existingPaths)
    (hcur : pathJoin cur projectName ∈ existingPaths) :
    specifyTargetFolder {} projectName
        ⟨bads.map some ++ some good :: picks,
         List.replicate bads.length (some "Choose another folder") ++ warns,
         existingPaths⟩
      = (some good, bads.length) ∧
    specifyTargetFolder {} projectName
        ⟨some cur :: picks, some "Continue" :: warns, existingPaths⟩
      = (some cur, 0) ∧
    targetFolderLoop projectName existingPaths picks (some "Continue" :: warns) (some cur) n
      = (some cur, n) ∧
    specifyTargetFolder {} projectName ⟨none :: picks, warns, existingPaths⟩
      = (none, 0) := by
  refine ⟨?_, ?_, ?_, ?_⟩
  · cases bads with
    | nil =>
      simp only [List.map_nil, List.nil_append, List.length_nil, List.replicate_zero,
        List.nil_append, specifyTargetFolder, jsTruthy]
      simp only [Bool.false_eq_true, if_false, List.tail_cons, List.headD_cons]
      exact targetFolderLoop_done projectName existingPaths _ _ _ _ hgood
    | cons b bs =>
      simp only [List.map_cons, List.cons_append, List.length_cons, List.replicate_succ,
        specifyTargetFolder, jsTruthy]
      simp only [Bool.false_eq_true, if_false, List.tail_cons, List.headD_cons]
      rw [targetFolderLoop_all_conflicts projectName good existingPaths picks warns hgood
        bs b 0 (hbads b (List.mem_cons_self b bs))
        (fun x hx => hbads x (List.mem_cons_of_mem b hx))]
      simp
  · simp only [specifyTargetFolder, jsTruthy]
    simp only [Bool.false_eq_true, if_false, List.tail_cons, List.headD_cons]
    exact targetFolderLoop_break projectName existingPaths _ _ _ _ _ hcur (by decide)
  · exact targetFolderLoop_break projectName existingPaths _ _ _ _ _ hcur (by decide)
  · simp only [specifyTargetFolder, jsTruthy]
    simp only [Bool.false_eq_true, if_false, List.tail_cons, List.headD_cons]
    exact targetFolderLoop_dismissed projectName existingPaths _ _ _

/-- Witness for C4: with `demo` as artifact id, candidates `/a` and `/b`
conflicting and `/c` clean, two choose-another answers land on `/c` after
exactly two round-trips; `Continue` keeps the conflicting `/a`; a
dismissed picker yields no folder. -/
theorem specifyTargetFolder_conflict_retries_witness :
    specifyTargetFolder {} "demo"
        ⟨[some "/a", some "/b", some "/c"],
         [some "Choose another folder", some "Choose another folder"],
         ["/a/demo", "/b/demo"]⟩
      = (some "/c", 2) ∧
    specifyTargetFolder {} "demo"
        ⟨[some "/a"], [some "Continue"], ["/a/demo", "/b/demo"]⟩
      = (some "/a", 0) ∧
    specifyTargetFolder {} "demo" ⟨[none], [], ["/a/demo", "/b/demo"]⟩
      = (none, 0) := by
  have h := specifyTargetFolder_conflict_retries "demo" "/c" "/a" ["/a/demo", "/b/demo"]
    ["/a", "/b"] [] [] 0 (by decide) (by decide) (by decide)
  exact ⟨h.1, h.2.1, h.2.2.2⟩

/-- C9: at a conflicting candidate, dismissing the overwrite warning
(`showWarningMessage` resolving to no choice) takes the same `else` branch
as choosing "Continue": the loop breaks and the step returns the current
conflicting candidate with no further round-trip — it neither re-prompts
nor cancels.  This holds for the whole step and mid-loop at any retry
count `n`. -/
theorem specifyTargetFolder_warn_dismiss_continues (projectName cur : String)
    (existingPaths : List String) (picks warns warns' : List (Option String)) (n : Nat)
    (hcur : pathJoin cur projectName ∈ existingPaths) :
    specifyTargetFolder {} projectName
        ⟨some cur :: picks, none :: warns, existingPaths⟩
      = (some cur, 0) ∧
    specifyTargetFolder {} projectName
        ⟨some cur :: picks, none :: warns, existingPaths⟩
      = specifyTargetFolder {} projectName
          ⟨some cur :: picks, some "Continue" :: warns', existingPaths⟩ ∧
    targetFolderLoop projectName existingPaths picks (none :: warns) (some cur) n
      = (some cur, n) := by
  have hdismiss : specifyTargetFolder {} projectName
      ⟨some cur :: picks, none :: warns, existingPaths⟩ = (some cur, 0) := by
    simp only [specifyTargetFolder, jsTruthy]
    simp only [Bool.false_eq_true, if_false, List.tail_cons, List.headD_cons]
    exact targetFolderLoop_break projectName existingPaths _ _ _ _ _ hcur (by decide)
  have hcont : specifyTargetFolder {} projectName
      ⟨some cur :: picks, some "Continue" :: warns', existingPaths⟩ = (some cur, 0) := by
    simp only [specifyTargetFolder, jsTruthy]
    simp only [Bool.false_eq_true, if_false, List.tail_cons, List.headD_cons]
    exact targetFolderLoop_break projectName existingPaths _ _ _ _ _ hcur (by decide)
  exact ⟨hdismiss, hdismiss.trans hcont.symm,
    targetFolderLoop_break projectName existingPaths _ _ _ _ _ hcur (by decide)⟩

/-- Witness for C9: dismissing the warning at the conflicting `/a` returns
`/a`, exactly as choosing Continue does. -/
theorem specifyTargetFolder_warn_dismiss_continues_witness :
    specifyTargetFolder {} "demo" ⟨[some "/a"], [none], ["/a/demo"]⟩ = (some "/a", 0) ∧
    specifyTargetFolder {} "demo" ⟨[some "/a"], [none], ["/a/demo"]⟩
      = specifyTargetFolder {} "demo" ⟨[some "/a"], [some "Continue"], ["/a/demo"]⟩ := by
  have h := specifyTargetFolder_warn_dismiss_continues "demo" "/a" ["/a/demo"] [] [] [] 0
    (by decide)
  exact ⟨h.1, h.2.1⟩

/-- C10: when `defaultOpenProjectMethod` is configured as the
add-to-current-workspace literal, `specifyOpenMethod` returns it without
showing the prompt even with no open folder; and in that state (no root
path, no workspace folder list) the add-to-current-workspace branch reads
the workspace folder list without a definedness guard, so the post-
generation action fails with an undefined-access error — it performs no
workspace mutation, no folder open, and no cancellation. -/
theorem openMethod_config_undefined_access (config : InitializrConfig)
    (openMethodPick : Option String) (outputFsPath artifactId : String)
    (hconfig : config.defaultOpenProjectMethod = some OPEN_IN_CURRENT_WORKSPACE) :
    specifyOpenMethod config false openMethodPick = (some OPEN_IN_CURRENT_WORKSPACE, false) ∧
    postGenerationAction config none none openMethodPick outputFsPath artifactId
      = ([], .error (.undefinedAccess
          "Cannot read properties of undefined (reading find)")) := by
  have hmethod : specifyOpenMethod config false openMethodPick
      = (some OPEN_IN_CURRENT_WORKSPACE, false) := by
    simp [specifyOpenMethod, hconfig, OPEN_IN_CURRENT_WORKSPACE, OPEN_IN_NEW_WORKSPACE]
  refine ⟨hmethod, ?_⟩
  simp only [postGenerationAction, Option.isSome_none, Bool.or_self, hmethod]
  simp [OPEN_IN_CURRENT_WORKSPACE, OPEN_IN_NEW_WORKSPACE, jsTruthy]

/-- Witness for C10. -/
theorem openMethod_config_undefined_access_witness :
    specifyOpenMethod ⟨none, none, none, none, some "Add to Workspace"⟩ false none
      = (some "Add to Workspace", false) ∧
    postGenerationAction ⟨none, none, none, none, some "Add to Workspace"⟩ none none none
        "/home/me" "demo"
      = ([], .error (.undefinedAccess
          "Cannot read properties of undefined (reading find)")) :=
  openMethod_config_undefined_access ⟨none, none, none, none, some "Add to Workspace"⟩
    none "/home/me" "demo" rfl

/-- The claim's notion of "existing open roots", written from the spec's
words: the workspace root path (when set and non-empty) together with the
uri paths of all workspace folders. -/
def existingRoots (rootPath : Option String) (wfs : List WorkspaceFolder) : List String :=
  (if jsTruthy rootPath then [rootPath.getD ""] else []) ++ wfs.filterMap (fun wf => wf.uri)

/-- Did a run of the post-generation action perform the workspace-mutation
call (`vscode.workspace.updateWorkspaceFolders`)? -/
def performedWorkspaceMutation (events : List Event) : Bool :=
  events.any (fun e =>
    match e with
    | Event.updateWorkspaceFolders _ => true
    | _ => false)

/-- C8: in the add-to-current-workspace branch (with a defined workspace
folder list), the workspace-mutation call happens exactly when the new
project's path extends no existing open root: if the path is nested inside
some existing root, no mutation call is performed, and the call is made
only (and always) when the path is contained in no existing root. -/
theorem postGenerationAction_containment_check (config : InitializrConfig)
    (rootPath : Option String) (wfs : List WorkspaceFolder)
    (openMethodPick : Option String) (outputFsPath artifactId : String)
    (hchoice : (specifyOpenMethod config true openMethodPick).1
        = some OPEN_IN_CURRENT_WORKSPACE) :
    performedWorkspaceMutation
        (postGenerationAction config rootPath (some wfs) openMethodPick outputFsPath
          artifactId).1
      = true
    ↔ ∀ r ∈ existingRoots rootPath wfs, strStartsWith outputFsPath r = false := by
  have hchoice' : ∀ b : Bool, (specifyOpenMethod config b openMethodPick).1
      = some OPEN_IN_CURRENT_WORKSPACE := fun _ => hchoice
  simp only [postGenerationAction, hchoice']
  simp only [OPEN_IN_CURRENT_WORKSPACE, OPEN_IN_NEW_WORKSPACE, Option.some.injEq,
    String.reduceEq, if_false, if_true, reduceCtorEq]
  by_cases hroot : jsTruthy rootPath = true ∧ strStartsWith outputFsPath (rootPath.getD "") = true
  · rw [if_neg (by simp [hroot.1, hroot.2])]
    simp only [performedWorkspaceMutation, List.any_nil]
    constructor
    · intro h
      exact absurd h (by simp)
    · intro hall
      exfalso
      have hmem : rootPath.getD "" ∈ existingRoots rootPath wfs := by
        simp [existingRoots, hroot.1]
      have hfalse := hall _ hmem
      rw [hroot.2] at hfalse
      exact Bool.noConfusion hfalse
  · rw [if_pos (by
      rw [Decidable.not_and_iff_or_not, Bool.not_eq_true, Bool.not_eq_true] at hroot
      rcases hroot with h | h <;> simp [h])]
    rw [Decidable.not_and_iff_or_not, Bool.not_eq_true, Bool.not_eq_true] at hroot
    by_cases hfind : (wfs.find? (fun wf =>
        match wf.uri with
        | some u => strStartsWith outputFsPath u
        | none => false)).isNone = true
    · rw [if_pos hfind]
      simp only [performedWorkspaceMutation, List.any_cons, List.any_nil, Bool.or_false,
        true_iff]
      rw [Option.isNone_iff_eq_none, List.find?_eq_none] at hfind
      intro r hr
      simp only [existingRoots, List.mem_append, List.mem_filterMap] at hr
      rcases hr with hr | ⟨wf, hwf, huri⟩
      · rcases hroot with hroot | hroot
        · simp [hroot] at hr
        · by_cases htr : jsTruthy rootPath = true
          · simp only [htr, if_true, List.mem_singleton] at hr
            rw [hr]
            exact hroot
          · rw [Bool.not_eq_true] at htr
            simp [htr] at hr
      · have hnp := hfind wf hwf
        rw [huri] at hnp
        simpa using hnp
    · rw [if_neg hfind]
      simp only [performedWorkspaceMutation, List.any_nil]
      constructor
      · intro h
        exact absurd h (by simp)
      · intro hall
        exfalso
        have hsome : (wfs.find? (fun wf =>
            match wf.uri with
            | some u => strStartsWith outputFsPath u
            | none => false)).isSome = true := by
          cases h : wfs.find? (fun wf =>
              match wf.uri with
              | some u => strStartsWith outputFsPath u
              | none => false) with
          | none => rw [h] at hfind; simp at hfind
          | some wf => simp
        rw [List.find?_isSome] at hsome
        obtain ⟨wf, hwfmem, hp⟩ := hsome
        match huri : wf.uri with
        | some u =>
          rw [huri] at hp
          have hswu : strStartsWith outputFsPath u = true := hp
          have humem : u ∈ existingRoots rootPath wfs := by
            simp only [existingRoots, List.mem_append, List.mem_filterMap]
            exact Or.inr ⟨wf, hwfmem, huri⟩
          have hfalse := hall _ humem
          rw [hswu] at hfalse
          exact Bool.noConfusion hfalse
        | none =>
          rw [huri] at hp
          exact Bool.noConfusion (hp : false = true)

/-- Witness for C8: with one open workspace folder `/ws`, generating into
`/elsewhere/demo` performs the mutation call, while generating into
`/ws/demo` (nested under the open root) performs none. -/
theorem postGenerationAction_containment_check_witness :
    performedWorkspaceMutation
        (postGenerationAction {} none (some [⟨some "/ws"⟩]) (some "Add to Workspace")
          "/elsewhere/demo" "demo").1
      = true ∧
    performedWorkspaceMutation
        (postGenerationAction {} none (some [⟨some "/ws"⟩]) (some "Add to Workspace")
          "/ws/demo" "demo").1
      = false := by
  constructor
  · exact (postGenerationAction_containment_check {} none [⟨some "/ws"⟩]
      (some "Add to Workspace") "/elsewhere/demo" "demo" rfl).mpr (by decide)
  · have h := postGenerationAction_containment_check {} none [⟨some "/ws"⟩]
      (some "Add to Workspace") "/ws/demo" "demo" rfl
    have hnot : ¬ ∀ r ∈ existingRoots none [⟨some "/ws"⟩],
        strStartsWith "/ws/demo" r = false := by decide
    cases hb : performedWorkspaceMutation
        (postGenerationAction {} none (some [⟨some "/ws"⟩]) (some "Add to Workspace")
          "/ws/demo" "demo").1 with
    | false => rfl
    | true => exact absurd (h.mp hb) hnot

/-- C1: for every wizard step in the fixed order, a step that resolves to
no value makes `runSteps` end at once in an `OperationCanceledError`
carrying that step's message; the resulting trace is exactly the step
invocations up to and including the failing step — no subsequent step, no
download/unzip action, and no last-used-dependencies update appears.  (The
dependencies step raises its own step-specific cancellation error from the
dismissed quick pick, which `runSteps` propagates unchanged.) -/
theorem runSteps_cancellation_propagates (projectType : String) (defaults : WizardParams)
    (dm : DependencyManager) (env : StepEnv) :
    (env.serviceUrl = none →
      runSteps projectType defaults dm env
        = ([Event.step "serviceUrl"],
           .error (.operationCanceled "Service URL not specified."))) ∧
    (∀ u, env.serviceUrl = some u →
      specifyLanguage defaults env.config env.languagePick = none →
      runSteps projectType defaults dm env
        = ([Event.step "serviceUrl", Event.step "Language"],
           .error (.operationCanceled "Language not specified."))) ∧
    (∀ u l, env.serviceUrl = some u →
      specifyLanguage defaults env.config env.languagePick = some l →
      specifyGroupId defaults env.config env.groupIdInput = none →
      runSteps projectType defaults dm env
        = ([Event.step "serviceUrl", Event.step "Language", Event.step "GroupId"],
           .error (.operationCanceled "GroupId not specified."))) ∧
    (∀ u l g, env.serviceUrl = some u →
      specifyLanguage defaults env.config env.languagePick = some l →
      specifyGroupId defaults env.config env.groupIdInput = some g →
      specifyArtifactId defaults env.config env.artifactIdInput = none →
      runSteps projectType defaults dm env
        = ([Event.step "serviceUrl", Event.step "Language", Event.step "GroupId",
            Event.step "ArtifactId"],
           .error (.operationCanceled "ArtifactId not specified."))) ∧
    (∀ u l g a, env.serviceUrl = some u →
      specifyLanguage defaults env.config env.languagePick = some l →
      specifyGroupId defaults env.config env.groupIdInput = some g →
      specifyArtifactId defaults env.config env.artifactIdInput = some a →
      specifyPackaging defaults env.config env.packagingPick = none →
      runSteps projectType defaults dm env
        = ([Event.step "serviceUrl", Event.step "Language", Event.step "GroupId",
            Event.step "ArtifactId", Event.step "Packaging"],
           .error (.operationCanceled "Packaging not specified."))) ∧
    (∀ u l g a p, env.serviceUrl = some u →
      specifyLanguage defaults env.config env.languagePick = some l →
      specifyGroupId defaults env.config env.groupIdInput = some g →
      specifyArtifactId defaults env.config env.artifactIdInput = some a →
      specifyPackaging defaults env.config env.packagingPick = some p →
      specifyBootVersion env.bootVersionPick = none →
      runSteps projectType defaults dm env
        = ([Event.step "serviceUrl", Event.step "Language", Event.step "GroupId",
            Event.step "ArtifactId", Event.step "Packaging", Event.step "BootVersion"],
           .error (.operationCanceled "BootVersion not specified."))) ∧
    (∀ u l g a p b e, env.serviceUrl = some u →
      specifyLanguage defaults env.config env.languagePick = some l →
      specifyGroupId defaults env.config env.groupIdInput = some g →
      specifyArtifactId defaults env.config env.artifactIdInput = some a →
      specifyPackaging defaults env.config env.packagingPick = some p →
      specifyBootVersion env.bootVersionPick = some b →
      specifyDependencies defaults env.depActions dm = .error e →
      runSteps projectType defaults dm env
        = ([Event.step "serviceUrl", Event.step "Language", Event.step "GroupId",
            Event.step "ArtifactId", Event.step "Packaging", Event.step "BootVersion",
            Event.step "Dependencies"],
           .error e)) ∧
    (∀ u l g a p b dep dm', env.serviceUrl = some u →
      specifyLanguage defaults env.config env.languagePick = some l →
      specifyGroupId defaults env.config env.groupIdInput = some g →
      specifyArtifactId defaults env.config env.artifactIdInput = some a →
      specifyPackaging defaults env.config env.packagingPick = some p →
      specifyBootVersion env.bootVersionPick = some b →
      specifyDependencies defaults env.depActions dm = .ok (dep, dm') →
      (specifyTargetFolder defaults a env.targetEnv).1 = none →
      runSteps projectType defaults dm env
        = ([Event.step "serviceUrl", Event.step "Language", Event.step "GroupId",
            Event.step "ArtifactId", Event.step "Packaging", Event.step "BootVersion",
            Event.step "Dependencies", Event.step "TargetFolder"],
           .error (.operationCanceled "Target folder not specified."))) := by
  refine ⟨?_, ?_, ?_, ?_, ?_, ?_, ?_, ?_⟩
  · intro h1
    simp [runSteps, h1]
  · intro u h1 h2
    simp [runSteps, h1, h2]
  · intro u l h1 h2 h3
    simp [runSteps, h1, h2, h3]
  · intro u l g h1 h2 h3 h4
    simp [runSteps, h1, h2, h3, h4]
  · intro u l g a h1 h2 h3 h4 h5
    simp [runSteps, h1, h2, h3, h4, h5]
  · intro u l g a p h1 h2 h3 h4 h5 h6
    simp [runSteps, h1, h2, h3, h4, h5, h6]
  · intro u l g a p b e h1 h2 h3 h4 h5 h6 h7
    simp [runSteps, h1, h2, h3, h4, h5, h6, h7]
  · intro u l g a p b dep dm' h1 h2 h3 h4 h5 h6 h7 h8
    simp [runSteps, h1, h2, h3, h4, h5, h6, h7, h8]

/-- Witness for C1 at the target-folder step: with every earlier step
resolving and the folder picker dismissed, the wizard ends in the
target-folder cancellation right after the eighth step invocation. -/
theorem runSteps_cancellation_propagates_witness :
    runSteps "maven-project" {} ⟨[]⟩
        ⟨some "https://start.spring.io", {}, some "Java", some "com.example", some "demo",
         some "JAR", some ⟨"2.7.0", "2.7.0 (GA)"⟩, [DepAction.pickConfirm],
         ⟨[none], [], []⟩, ⟨.ok "/tmp/starter.zip", none⟩, none, none, none⟩
      = ([Event.step "serviceUrl", Event.step "Language", Event.step "GroupId",
          Event.step "ArtifactId", Event.step "Packaging", Event.step "BootVersion",
          Event.step "Dependencies", Event.step "TargetFolder"],
         .error (.operationCanceled "Target folder not specified.")) :=
  (runSteps_cancellation_propagates "maven-project" {} ⟨[]⟩
      ⟨some "https://start.spring.io", {}, some "Java", some "com.example", some "demo",
       some "JAR", some ⟨"2.7.0", "2.7.0 (GA)"⟩, [DepAction.pickConfirm],
       ⟨[none], [], []⟩, ⟨.ok "/tmp/starter.zip", none⟩, none, none, none⟩).2.2.2.2.2.2.2
    "https://start.spring.io" "java" "com.example" "demo" "jar" "2.7.0"
    ⟨"selection", ""⟩ ⟨[]⟩ rfl (by decide) rfl rfl (by decide) rfl (by decide) (by decide)

/-- The download-and-unzip phase resolves only when both the download and
the extraction succeeded. -/
lemma downloadAndUnzip_ok_inv (url dir : String) (fenv : FetchEnv) (u : Unit)
    (h : (downloadAndUnzip url dir fenv).2 = .ok u) :
    (∃ f, fenv.downloadResult = .ok f) ∧ fenv.extractResult = none := by
  rcases fenv with ⟨dres, eres⟩
  cases dres with
  | error e => simp [downloadAndUnzip] at h
  | ok f =>
    cases eres with
    | none => exact ⟨⟨f, rfl⟩, rfl⟩
    | some err => simp [downloadAndUnzip] at h

/-- The post-generation action never raises a cancellation error. -/
lemma postGenerationAction_not_canceled (config : InitializrConfig)
    (rootPath : Option String) (workspaceFolders : Option (List WorkspaceFolder))
    (openMethodPick : Option String) (outputFsPath artifactId : String) (msg : String) :
    (postGenerationAction config rootPath workspaceFolders openMethodPick outputFsPath
        artifactId).2
      ≠ .error (.operationCanceled msg) := by
  unfold postGenerationAction
  repeat' split
  all_goals intro hc
  all_goals simp_all
  all_goals repeat' split at hc
  all_goals simp_all

/-- C6: the last-used-dependencies update event occurs in a wizard run's
trace only if the download succeeded and the extraction succeeded — hence
never after a step cancellation, a download failure, or an extraction
failure — and such a run's outcome is never a cancellation error. -/
theorem runSteps_lastUsed_requires_success (projectType : String)
    (defaults : WizardParams) (dm : DependencyManager) (env : StepEnv) (s : String)
    (h : Event.updateLastUsedDependencies s ∈ (runSteps projectType defaults dm env).1) :
    (∃ f, env.fetch.downloadResult = .ok f) ∧ env.fetch.extractResult = none ∧
      ∀ msg, (runSteps projectType defaults dm env).2
        ≠ .error (.operationCanceled msg) := by
  revert h
  simp only [runSteps]
  repeat' split
  all_goals intro h
  all_goals simp_all
  all_goals rename_i u heq
  all_goals exact ⟨(downloadAndUnzip_ok_inv _ _ _ u heq).1,
    (downloadAndUnzip_ok_inv _ _ _ u heq).2,
    fun msg => postGenerationAction_not_canceled _ _ _ _ _ _ msg⟩

/-- Witness for C6: a fully successful run (all steps resolve, download and
extraction succeed) does carry the update event, and indeed its download
succeeded, its extraction succeeded, and its outcome is no cancellation. -/
theorem runSteps_lastUsed_requires_success_witness :
    (∃ f, (StepEnv.mk (some "https://start.spring.io") {} (some "Java")
        (some "com.example") (some "demo") (some "JAR") (some ⟨"2.7.0", "2.7.0 (GA)"⟩)
        [DepAction.pickConfirm] ⟨[some "/home/me"], [], []⟩
        ⟨.ok "/tmp/starter.zip", none⟩ none none (some "Open")).fetch.downloadResult
      = .ok f) ∧
    (StepEnv.mk (some "https://start.spring.io") {} (some "Java")
        (some "com.example") (some "demo") (some "JAR") (some ⟨"2.7.0", "2.7.0 (GA)"⟩)
        [DepAction.pickConfirm] ⟨[some "/home/me"], [], []⟩
        ⟨.ok "/tmp/starter.zip", none⟩ none none (some "Open")).fetch.extractResult
      = none ∧
    ∀ msg, (runSteps "maven-project" {} ⟨[]⟩
        (StepEnv.mk (some "https://start.spring.io") {} (some "Java")
          (some "com.example") (some "demo") (some "JAR") (some ⟨"2.7.0", "2.7.0 (GA)"⟩)
          [DepAction.pickConfirm] ⟨[some "/home/me"], [], []⟩
          ⟨.ok "/tmp/starter.zip", none⟩ none none (some "Open"))).2
      ≠ .error (.operationCanceled msg) :=
  runSteps_lastUsed_requires_success "maven-project" {} ⟨[]⟩
    (StepEnv.mk (some "https://start.spring.io") {} (some "Java")
      (some "com.example") (some "demo") (some "JAR") (some ⟨"2.7.0", "2.7.0 (GA)"⟩)
      [DepAction.pickConfirm] ⟨[some "/home/me"], [], []⟩
      ⟨.ok "/tmp/starter.zip", none⟩ none none (some "Open")) ""
    (by set_option maxRecDepth 8000 in decide)
